/-
Verification development for the Anemo conjunctiva-anemia inference pipeline.

Shallow embedding of the core pipeline sources:
  src/detector.py    (detect_and_crop: validation, downscale, YOLO box
                      selection by largest area, clamp, crop, fallback)
  src/preprocess.py  (preprocess_image: shape/dtype validation, CLAHE /
                      denoise / sharpen enhancement chain, scaling to [0,1])
  src/classifier.py  (predict_anemia: probability-to-label decision rule)
  src/explain.py     (generate_gradcam: input validation, gradient map,
                      percentile normalization, overlay, fault absorption)
  src/pipeline.py    (run_pipeline: orchestration, result assembly,
                      explainability fault isolation)

Modelling conventions:
  * numpy arrays are records carrying a shape list, a dtype tag and a total
    valuation function; machine floats are modelled by ℚ.
  * opaque external library routines (cv2 filters, np.percentile, np.max,
    image encoding) are fields of a `CV` context record.  Only cv2.resize
    carries a contract (the output dimensions), because the source relies
    on it for the 224x224 guarantee.  Channel-order swaps, cropping,
    clamping, and all arithmetic the source performs itself are concrete.
  * file-system facts about the input path (existence, extension, size,
    decodability) are fields of `FileArg`; written files are returned as an
    explicit list of (filename, image) pairs, with a deleted-after-write
    heatmap (the 50MB limit path) not surviving into that list.
  * Python exceptions are `Except String`; `None` results are `Option`.
-/
import Mathlib

/-- numpy dtype tag: the source distinguishes unsigned 8-bit images (the
only integer dtype that survives the cv2 enhancement chain), other integer
dtypes (accepted by validation but rejected with an exception, caught and
turned into `None`, by the first cv2 call), float32, and anything else. -/
inductive NPDtype where
  | uint8
  | intOther
  | float32
  | other
deriving DecidableEq

/-- Is the dtype an integer dtype in the sense of np.issubdtype(_, np.integer)? -/
def NPDtype.isInteger : NPDtype → Bool
  | .uint8 => true
  | .intOther => true
  | _ => false

/-- A numpy ndarray: shape, dtype, and a total valuation indexed by a list
of coordinates (indices outside the shape are junk and never inspected). -/
structure NDArray where
  shape : List Nat
  dtype : NPDtype
  val : List Nat → ℚ

/-- An in-memory 3-channel 8-bit image as loaded by cv2 (row, column,
channel); `h` and `w` are the pixel dimensions, channel count is fixed at 3. -/
structure Image where
  h : Nat
  w : Nat
  pix : Nat → Nat → Nat → Fin 256

/-- A 224x224x3 8-bit working image of the enhancement chain (dimensions
implicit, indices beyond 224 are junk). -/
def Img : Type := Nat → Nat → Nat → Fin 256

/-- One YOLO detection: class name, xyxy box corners (already truncated to
int as in the source), confidence score. -/
structure Det where
  cls : String
  x1 : Int
  y1 : Int
  x2 : Int
  y2 : Int
  score : ℚ

/-- File-system facts about the input path handed to the Detector.
`dotdot` is whether str(path) contains "..", `nameDotdot` the same for the
final path component; `imread` is the decoded image, `none` when cv2
cannot read the file. -/
structure FileArg where
  pathStr : String
  name : String
  suffix : String
  fexists : Bool
  isFile : Bool
  dotdot : Bool
  nameDotdot : Bool
  size : Nat
  imread : Option Image

/-- The Explainer's output path: string form, lowercase suffix, and whether
the string contains "..". -/
structure OutPath where
  pathStr : String
  suffix : String
  dotdot : Bool

/-- Context of external library routines used by the pipeline.  Each field
models one opaque cv2/numpy call; `resize_h`/`resize_w` record the only
contract the source depends on (cv2.resize returns the requested size). -/
structure CV where
  resize : Image → Nat → Nat → Image
  resize_h : ∀ im nh nw, (resize im nh nw).h = nh
  resize_w : ∀ im nh nw, (resize im nh nw).w = nw
  rectangle : Image → Int → Int → Int → Int → Image
  clahe : (Nat → Nat → Fin 256) → Nat → Nat → Fin 256
  denoise : Img → Img
  sharpen : Img → Img
  npMax : (List Nat → ℚ) → List Nat → ℚ
  percentile : (Nat → Nat → ℚ) → ℚ → ℚ
  gaussBlur : (Nat → Nat → ℚ) → Nat → Nat → ℚ
  resizeMap : (Nat → Nat → ℚ) → Nat → Nat → Nat → Nat → ℚ
  colormap : (Nat → Nat → ℚ) → Nat → Nat → Image
  grayBGR : Image → Image
  addWeighted : Image → ℚ → Image → ℚ → ℚ → Image
  encodeSize : Image → Nat

/-- The loaded Keras classifier as the pipeline sees it: its layer names
(for model.get_layer), its scalar output probability model.predict(t)[0][0],
and the input gradient tape.gradient(loss, input)[...] (None when
automatic differentiation returns no gradient). -/
structure KModel where
  layers : List String
  predictP : NDArray → ℚ
  inputGrads : NDArray → Option (List Nat → ℚ)

/-- The orchestrator's result record.  `heatmap_path = none` models the
"heatmap_path" key being absent from the Python dict. -/
structure PipeResult where
  label : String
  confidence : ℚ
  boxed_image_path : String
  note : Option String
  heatmap_path : Option String
deriving DecidableEq

/-! ## Constants from src/detector.py and src/explain.py -/

def MAX_IMAGE_SIZE : Nat := 100 * 1024 * 1024

def MAX_HEATMAP_SIZE : Nat := 50 * 1024 * 1024

def ALLOWED_EXTENSIONS : List String := [".jpg", ".jpeg", ".png", ".webp"]

def TARGET_CLASSES : List String := ["palpebral", "forniceal_palpebral", "eye"]

/-! ## Shared small helpers -/

/-- cv2.cvtColor(_, COLOR_BGR2RGB) (equally RGB2BGR): reverse the channel
order, dimensions unchanged. -/
def cvtBGR2RGB (im : Image) : Image :=
  { h := im.h, w := im.w, pix := fun i j c => im.pix i j (2 - c) }

/-- Read one 8-bit pixel out of an integer ndarray valuation (identity on
genuine uint8 data). -/
def pix8 (q : ℚ) : Fin 256 :=
  ⟨Int.toNat q.floor % 256, Nat.mod_lt _ (by norm_num)⟩

/-- View an 8-bit image as the uint8 ndarray numpy hands to the Normalizer. -/
def imgToND (im : Image) : NDArray :=
  { shape := [im.h, im.w, 3]
    dtype := .uint8
    val := fun l => match l with
      | [i, j, c] => ((im.pix i j c : Nat) : ℚ)
      | _ => 0 }

/-- Python str.replace of the single characters "/" and "\" by "_"
(the Detector's output-filename sanitization). -/
def sanitizeName (s : String) : String :=
  String.mk (s.toList.map (fun ch => if ch = '/' ∨ ch = '\\' then '_' else ch))

/-- The Detector's boxed output filename: "boxed_" + input name, path
separators replaced by "_". -/
def boxedFilename (f : FileArg) : String :=
  sanitizeName ("boxed_" ++ f.name)

/-! ## src/classifier.py -/

/-- predict_anemia's decision rule on the scalar model probability
p = model.predict(input_tensor)[0][0]. -/
def predict_anemia (p : ℚ) : String × ℚ :=
  if p < 1/2 then ("NON-ANEMIC", 1 - p) else ("ANEMIC", p)

/-! ## src/preprocess.py -/

/-- The Normalizer's shape/dtype validation on its argument (the two
guards at the top of preprocess_image; the None/isinstance guards are
satisfied by typing in this model). -/
def regionValid (cv : CV) (a : NDArray) : Bool :=
  decide (a.shape = [224, 224, 3]) &&
    (a.dtype.isInteger && !(decide (255 < cv.npMax a.val a.shape)))

/-- preprocess_image: validate, then run the cv2 enhancement chain
(BGR swap, CLAHE on the green channel, denoise, sharpen, swap back),
rescale to [0,1] floats and add the batch dimension.  All cv2 calls raise
on integer dtypes other than uint8 (cvtColor or fastNlMeansDenoisingColored
reject them), which the source's except-block turns into None. -/
def preprocess_image (cv : CV) (a : NDArray) : Option NDArray :=
  if ¬ (a.shape = [224, 224, 3]) then none
  else if ¬ a.dtype.isInteger ∨ 255 < cv.npMax a.val a.shape then none
  else match a.dtype with
    | .uint8 =>
      let rgb : Img := fun i j c => pix8 (a.val [i, j, c])
      let bgr : Img := fun i j c => rgb i j (2 - c)
      let b : Nat → Nat → Fin 256 := fun i j => bgr i j 0
      let g : Nat → Nat → Fin 256 := fun i j => bgr i j 1
      let r : Nat → Nat → Fin 256 := fun i j => bgr i j 2
      let g2 := cv.clahe g
      let merged : Img := fun i j c =>
        if c = 0 then b i j else if c = 1 then g2 i j else r i j
      let den := cv.denoise merged
      let sh := cv.sharpen den
      let rgb2 : Img := fun i j c => sh i j (2 - c)
      some { shape := [1, 224, 224, 3]
             dtype := .float32
             val := fun l => match l with
               | [_, i, j, c] => ((rgb2 i j c : Nat) : ℚ) / 255
               | _ => 0 }
    | _ => none

/-! ## src/detector.py -/

/-- Bounding-box area as computed by the source on the raw (unclamped)
integer corners: (x2 - x1) * (y2 - y1). -/
def area (d : Det) : Int := (d.x2 - d.x1) * (d.y2 - d.y1)

/-- The detection-selection loop of detect_and_crop: keep the qualifying
detection of strictly largest area seen so far (best_box / best_area). -/
def selectLoop : List Det → Option Det → Int → Option Det
  | [], best, _ => best
  | d :: rest, best, bestArea =>
    if d.cls ∈ TARGET_CLASSES ∧ bestArea < area d then
      selectLoop rest (some d) (area d)
    else
      selectLoop rest best bestArea

/-- The detection the Detector selects (best_box after the loop, starting
from None / 0). -/
def selectBest (ds : List Det) : Option Det := selectLoop ds none 0

/-- The qualifying detections, in encounter order. -/
def qualifying (ds : List Det) : List Det :=
  ds.filter (fun d => decide (d.cls ∈ TARGET_CLASSES))

/-- The memory-bound downscale step: if either dimension exceeds 2048,
resize proportionally (exact-arithmetic floor stands in for Python's
int(dim * scale) on floats). -/
def loadScaled (cv : CV) (im : Image) : Image :=
  if 2048 < im.w ∨ 2048 < im.h then
    cv.resize im (im.h * 2048 / max im.w im.h) (im.w * 2048 / max im.w im.h)
  else im

/-- numpy basic-slicing index normalization for a[start:stop] on an axis
of length n (step 1): a negative index first wraps by adding n, and the
result is clamped into [0, n].  In particular a negative stop such as -10
on a 100-wide axis means column 90, not an empty slice. -/
def sliceNorm (idx : Int) (n : Nat) : Nat :=
  min ((if idx < 0 then idx + n else idx).toNat) n

/-- numpy slice image[y1:y2, x1:x2]: both bounds of each axis are
normalized by sliceNorm, the slice length is the truncated difference
(empty when the normalized stop does not exceed the normalized start),
and pixels are read from the normalized start offsets. -/
def cropSlice (im : Image) (x1 y1 x2 y2 : Int) : Image :=
  { h := sliceNorm y2 im.h - sliceNorm y1 im.h
    w := sliceNorm x2 im.w - sliceNorm x1 im.w
    pix := fun i j c => im.pix (i + sliceNorm y1 im.h) (j + sliceNorm x1 im.w) c }

/-- detect_and_crop: path validation, image load, downscale, YOLO
inference, largest-area selection, clamp / draw / save / crop, or the
full-image fallback.  Returns the cropped RGB region (None when a selected
box yields an empty crop) together with the files written.  The yolo
argument models the loaded localization model. -/
def detect_and_crop (cv : CV) (yolo : Image → List Det) (f : FileArg) :
    Except String (Option Image) × List (String × Image) :=
  if f.dotdot then (.error "Invalid image path", [])
  else if ¬ (f.fexists ∧ f.isFile) then (.error "Could not access image file", [])
  else if ¬ (f.suffix ∈ ALLOWED_EXTENSIONS) then (.error "Unsupported file type", [])
  else if MAX_IMAGE_SIZE < f.size then (.error "Image file too large", [])
  else match f.imread with
    | none => (.error "Could not read image - file may be corrupted", [])
    | some img0 =>
      let img := loadScaled cv img0
      let dets := yolo img
      match selectBest dets with
      | some d =>
        let x1 := max 0 d.x1
        let y1 := max 0 d.y1
        let x2 := min (img.w : Int) d.x2
        let y2 := min (img.h : Int) d.y2
        let boxedImg := cv.rectangle img x1 y1 x2 y2
        let cropB := cropSlice img x1 y1 x2 y2
        if cropB.h * cropB.w * 3 ≠ 0 then
          (.ok (some (cvtBGR2RGB (cv.resize cropB 224 224))),
            [(boxedFilename f, boxedImg)])
        else
          (.ok none, [(boxedFilename f, boxedImg)])
      | none =>
        (.ok (some (cvtBGR2RGB (cv.resize img 224 224))),
          [(boxedFilename f, img)])

/-! ## src/explain.py -/

/-- The per-pixel gradient magnitude tf.reduce_max(tf.abs(input_grads[0]),
axis=-1): maximum absolute gradient across the 3 channels. -/
def gradMagnitude (g : List Nat → ℚ) : Nat → Nat → ℚ :=
  fun i j => max (|g [0, i, j, 0]|) (max (|g [0, i, j, 1]|) (|g [0, i, j, 2]|))

/-- The heatmap after np.maximum(heatmap, 0), the map whose 40th/99th
percentiles the Explainer takes. -/
def rawHeatmap (g : List Nat → ℚ) : Nat → Nat → ℚ :=
  fun i j => max (gradMagnitude g i j) 0

/-- generate_gradcam: validate the tensor shape and output path, fetch the
'mobilenetv2_1.00_224' layer (a missing layer raises, which the except
block turns into None), differentiate the scalar output with respect to
the input, reduce / percentile-normalize / threshold / smooth the map,
composite the overlay, and write it.  Returns the heatmap path (None on
any failure) together with the surviving written files: a heatmap that is
written but then deleted by the 50MB limit does not survive.  The
original_rgb channel-count check (shape[2] == 3) is satisfied by typing
here, as `Image` is 3-channel by construction. -/
def generate_gradcam (cv : CV) (model : KModel) (input_tensor : NDArray)
    (original_rgb : Image) (out : OutPath) :
    Option String × List (String × Image) :=
  if ¬ (input_tensor.shape = [1, 224, 224, 3]) then (none, [])
  else if ¬ (out.suffix ∈ ALLOWED_EXTENSIONS) then (none, [])
  else if out.dotdot then (none, [])
  else if ¬ ("mobilenetv2_1.00_224" ∈ model.layers) then (none, [])
  else match model.inputGrads input_tensor with
    | none => (none, [])
    | some g =>
      let hm0 := rawHeatmap g
      let pLow := cv.percentile hm0 40
      let pHigh := cv.percentile hm0 99
      if pHigh ≤ pLow then (none, [])
      else
        let hm1 : Nat → Nat → ℚ := fun i j => min pHigh (max pLow (hm0 i j))
        let hm2 : Nat → Nat → ℚ := fun i j =>
          (hm1 i j - pLow) / max (pHigh - pLow) (1/1000000)
        let hm3 : Nat → Nat → ℚ := fun i j => min 1 (max 0 (hm2 i j))
        let hm4 : Nat → Nat → ℚ := fun i j =>
          if hm3 i j < 2/5 then 0 else hm3 i j
        let hm5 := cv.gaussBlur hm4
        let hm6 := if ¬ ((224, 224) = (original_rgb.h, original_rgb.w)) then
            cv.resizeMap hm5 original_rgb.w original_rgb.h
          else hm5
        let colored := cv.colormap (fun i j => 255 * hm6 i j)
          original_rgb.h original_rgb.w
        let gray := cv.grayBGR original_rgb
        let overlay := cv.addWeighted gray (9/20) colored (13/20) 0
        if MAX_HEATMAP_SIZE < cv.encodeSize overlay then (none, [])
        else (some out.pathStr, [(out.pathStr, overlay)])

/-! ## src/pipeline.py -/

/-- Python's round(x, 2) on the percentage (round-half-up stands in for
float round-half-to-even; no claim depends on exact half ties). -/
def round2 (x : ℚ) : ℚ := (round (x * 100) : ℤ) / 100

/-- The heatmap output path RESULTS_DIR / f"heatmap_{image_path.name}"
the orchestrator hands to the Explainer. -/
def heatOutPath (f : FileArg) : OutPath :=
  { pathStr := "heatmap_" ++ f.name
    suffix := f.suffix
    dotdot := f.nameDotdot }

/-- The primary result record run_pipeline assembles from the classifier
output (before any heatmap key is added). -/
def classifierResult (km : KModel) (f : FileArg) (t : NDArray) : PipeResult :=
  { label := (predict_anemia (km.predictP t)).1
    confidence := round2 ((predict_anemia (km.predictP t)).2 * 100)
    boxed_image_path := "boxed_" ++ f.name
    note := none
    heatmap_path := none }

/-- run_pipeline: existence check, Detector, Normalizer, Classifier,
result assembly, and the fault-isolated optional Explainer.  Returns the
Python outcome (result record or raised error) together with every derived
image written under the results directory.  The explain flag is taken as a
Bool (the source coerces non-bool arguments with bool()). -/
def run_pipeline (cv : CV) (yolo : Image → List Det) (km : KModel)
    (f : FileArg) (explain : Bool) :
    Except String PipeResult × List (String × Image) :=
  if ¬ f.fexists then (.error "Image file not found", [])
  else match detect_and_crop cv yolo f with
    | (.error e, fs) => (.error e, fs)
    | (.ok none, fs) => (.error "Failed to extract image data for classification", fs)
    | (.ok (some crop_rgb), fs) =>
      match preprocess_image cv (imgToND crop_rgb) with
      | none => (.error "Failed to preprocess image", fs)
      | some input_tensor =>
        let result0 := classifierResult km f input_tensor
        if explain then
          match generate_gradcam cv km input_tensor crop_rgb (heatOutPath f) with
          | (some hp, fs2) =>
            (.ok { result0 with heatmap_path := some hp }, fs ++ fs2)
          | (none, fs2) => (.ok result0, fs ++ fs2)
        else (.ok result0, fs)

/-- The crop the Detector hands the rest of the pipeline (None when the
Detector raised or returned None). -/
def pipelineCrop (cv : CV) (yolo : Image → List Det) (f : FileArg) :
    Option Image :=
  match (detect_and_crop cv yolo f).1 with
  | .ok c => c
  | .error _ => none

/-- The tensor the Normalizer hands the Classifier/Explainer on this
invocation, when every stage up to it succeeds. -/
def pipelineTensor (cv : CV) (yolo : Image → List Det) (f : FileArg) :
    Option NDArray :=
  (pipelineCrop cv yolo f).bind fun c => preprocess_image cv (imgToND c)

/-! ## Selection-loop lemmas (Detector box choice) -/

/-- Characterization of the selection loop once a qualifying box `b` holds
the accumulator: the final winner is `b` itself (every later qualifying box
is no larger), or a strictly larger later box, first among equals. -/
theorem selectLoop_from_some (ds : List Det) (b : Det) :
    ∃ d, selectLoop ds (some b) (area b) = some d ∧
      ((d = b ∧ ∀ e ∈ qualifying ds, area e ≤ area b) ∨
       (∃ l1 l2, qualifying ds = l1 ++ d :: l2 ∧ area b < area d ∧
         (∀ e ∈ l1, area e < area d) ∧ (∀ e ∈ l2, area e ≤ area d))) := by
  induction ds generalizing b with
  | nil =>
    exact ⟨b, rfl, Or.inl ⟨rfl, by simp [qualifying]⟩⟩
  | cons d0 rest ih =>
    by_cases hc : d0.cls ∈ TARGET_CLASSES ∧ area b < area d0
    · have hq : qualifying (d0 :: rest) = d0 :: qualifying rest := by
        simp [qualifying, List.filter_cons, hc.1]
      obtain ⟨d, hd, hcase⟩ := ih d0
      refine ⟨d, ?_, ?_⟩
      · simpa [selectLoop, if_pos hc] using hd
      · rcases hcase with ⟨rfl, hall⟩ | ⟨l1, l2, hsplit, hlt, h1, h2⟩
        · exact Or.inr ⟨[], qualifying rest, by simp [hq], hc.2, by simp,
            hall⟩
        · refine Or.inr ⟨d0 :: l1, l2, by simp [hq, hsplit],
            lt_trans hc.2 hlt, ?_, h2⟩
          intro e he
          rcases List.mem_cons.1 he with rfl | he
          · exact hlt
          · exact h1 e he
    · obtain ⟨d, hd, hcase⟩ := ih b
      refine ⟨d, ?_, ?_⟩
      · simpa [selectLoop, if_neg hc] using hd
      · by_cases hm : d0.cls ∈ TARGET_CLASSES
        · have hle : area d0 ≤ area b := by
            by_contra hcon
            exact hc ⟨hm, lt_of_not_le hcon⟩
          have hq : qualifying (d0 :: rest) = d0 :: qualifying rest := by
            simp [qualifying, List.filter_cons, hm]
          rcases hcase with ⟨rfl, hall⟩ | ⟨l1, l2, hsplit, hlt, h1, h2⟩
          · refine Or.inl ⟨rfl, ?_⟩
            intro e he
            rw [hq] at he
            rcases List.mem_cons.1 he with rfl | he
            · exact hle
            · exact hall e he
          · refine Or.inr ⟨d0 :: l1, l2, by simp [hq, hsplit],
              hlt, ?_, h2⟩
            intro e he
            rcases List.mem_cons.1 he with rfl | he
            · exact lt_of_le_of_lt hle hlt
            · exact h1 e he
        · have hq : qualifying (d0 :: rest) = qualifying rest := by
            simp [qualifying, List.filter_cons, hm]
          rw [hq]
          exact hcase

/-- Characterization of selectBest when every qualifying detection has
positive area (the DetectionBox invariant x1 < x2, y1 < y2): either there
is no qualifying detection and nothing is selected, or the first
largest-area qualifying detection is selected. -/
theorem selectBest_spec (ds : List Det)
    (hpos : ∀ e ∈ qualifying ds, 0 < area e) :
    (qualifying ds = [] ∧ selectBest ds = none) ∨
    (∃ d l1 l2, selectBest ds = some d ∧ qualifying ds = l1 ++ d :: l2 ∧
      (∀ e ∈ l1, area e < area d) ∧ (∀ e ∈ l2, area e ≤ area d)) := by
  unfold selectBest
  induction ds with
  | nil => exact Or.inl ⟨by simp [qualifying], rfl⟩
  | cons d0 rest ih =>
    by_cases hm : d0.cls ∈ TARGET_CLASSES
    · have hq : qualifying (d0 :: rest) = d0 :: qualifying rest := by
        simp [qualifying, List.filter_cons, hm]
      have h0 : (0 : Int) < area d0 := by
        apply hpos
        rw [hq]
        exact List.mem_cons_self _ _
      have hc : d0.cls ∈ TARGET_CLASSES ∧ (0 : Int) < area d0 := ⟨hm, h0⟩
      obtain ⟨d, hd, hcase⟩ := selectLoop_from_some rest d0
      refine Or.inr ?_
      rcases hcase with ⟨rfl, hall⟩ | ⟨l1, l2, hsplit, hlt, h1, h2⟩
      · exact ⟨d, [], qualifying rest,
          by simpa [selectLoop, if_pos hc] using hd, by simp [hq], by simp,
          hall⟩
      · refine ⟨d, d0 :: l1, l2,
          by simpa [selectLoop, if_pos hc] using hd,
          by simp [hq, hsplit], ?_, h2⟩
        intro e he
        rcases List.mem_cons.1 he with rfl | he
        · exact hlt
        · exact h1 e he
    · have hq : qualifying (d0 :: rest) = qualifying rest := by
        simp [qualifying, List.filter_cons, hm]
      have hc : ¬ (d0.cls ∈ TARGET_CLASSES ∧ (0 : Int) < area d0) := by
        intro hcon
        exact hm hcon.1
      have hstep : selectLoop (d0 :: rest) none 0 = selectLoop rest none 0 := by
        simp [selectLoop, if_neg hc]
      rw [hstep, hq]
      rw [hq] at hpos
      exact ih hpos

/-! ## Claim C4 -/

/-- Claim C4: among the detections whose class label is in the accepted
set (and which, as genuine bounding boxes, have positive area), the
Detector's selection routine picks a detection of largest bounding-box
area, and on area ties the first one encountered: every qualifying
detection listed before the selected one is strictly smaller, every one
after it is no larger, and the confidence scores play no role (they are
never inspected by selectLoop). -/
theorem detector_selects_largest_area (ds : List Det)
    (hmult : 2 ≤ (qualifying ds).length)
    (hpos : ∀ e ∈ qualifying ds, 0 < area e) :
    ∃ d l1 l2, selectBest ds = some d ∧
      qualifying ds = l1 ++ d :: l2 ∧
      (∀ e ∈ qualifying ds, area e ≤ area d) ∧
      (∀ e ∈ l1, area e < area d) ∧
      (∀ e ∈ l2, area e ≤ area d) := by
  rcases selectBest_spec ds hpos with ⟨hnil, _⟩ | ⟨d, l1, l2, hsel, hsplit, h1, h2⟩
  · rw [hnil] at hmult
    simp at hmult
  · refine ⟨d, l1, l2, hsel, hsplit, ?_, h1, h2⟩
    intro e he
    rw [hsplit] at he
    rcases List.mem_append.1 he with he | he
    · exact le_of_lt (h1 e he)
    · rcases List.mem_cons.1 he with rfl | he
      · exact le_refl _
      · exact h2 e he

/-- A concrete detection list: one non-qualifying box of largest area, a
small qualifying box first, then a larger qualifying box with a lower
score ordering position. -/
def ds4 : List Det :=
  [{ cls := "nose", x1 := 0, y1 := 0, x2 := 9, y2 := 9, score := 0 },
   { cls := "palpebral", x1 := 0, y1 := 0, x2 := 2, y2 := 2, score := 1 },
   { cls := "eye", x1 := 0, y1 := 0, x2 := 3, y2 := 3, score := 0 }]

theorem detector_selects_largest_area_witness :
    2 ≤ (qualifying ds4).length ∧
    (∀ e ∈ qualifying ds4, 0 < area e) ∧
    (∃ d l1 l2, selectBest ds4 = some d ∧
      qualifying ds4 = l1 ++ d :: l2 ∧
      (∀ e ∈ qualifying ds4, area e ≤ area d) ∧
      (∀ e ∈ l1, area e < area d) ∧
      (∀ e ∈ l2, area e ≤ area d)) :=
  ⟨by decide, by decide,
    detector_selects_largest_area ds4 (by decide) (by decide)⟩

/-! ## Claim C1 -/

/-- Claim C1: for every scalar model probability p in [0,1] the classifier
returns NON-ANEMIC with confidence 1-p when p < 0.5 and ANEMIC with
confidence p otherwise; p = 0.5 gives ANEMIC at 0.5, p = 0 gives
NON-ANEMIC at 1, p = 1 gives ANEMIC at 1, and the returned confidence is
always at least 0.5. -/
theorem classifier_decision (p : ℚ) (h0 : 0 ≤ p) (h1 : p ≤ 1) :
    (p < 1/2 → predict_anemia p = ("NON-ANEMIC", 1 - p)) ∧
    (1/2 ≤ p → predict_anemia p = ("ANEMIC", p)) ∧
    predict_anemia (1/2) = ("ANEMIC", 1/2) ∧
    predict_anemia 0 = ("NON-ANEMIC", 1) ∧
    predict_anemia 1 = ("ANEMIC", 1) ∧
    1/2 ≤ (predict_anemia p).2 := by
  refine ⟨?_, ?_, ?_, ?_, ?_, ?_⟩
  · intro hp
    unfold predict_anemia
    rw [if_pos hp]
  · intro hp
    unfold predict_anemia
    rw [if_neg (not_lt.2 hp)]
  · norm_num [predict_anemia]
  · norm_num [predict_anemia]
  · norm_num [predict_anemia]
  · unfold predict_anemia
    split_ifs with h
    · simp only []
      linarith
    · simpa using not_lt.1 h

theorem classifier_decision_witness :
    0 ≤ (3/4 : ℚ) ∧ (3/4 : ℚ) ≤ 1 ∧
    (((3/4 : ℚ) < 1/2 → predict_anemia (3/4) = ("NON-ANEMIC", 1 - 3/4)) ∧
     (1/2 ≤ (3/4 : ℚ) → predict_anemia (3/4) = ("ANEMIC", 3/4)) ∧
     predict_anemia (1/2) = ("ANEMIC", 1/2) ∧
     predict_anemia 0 = ("NON-ANEMIC", 1) ∧
     predict_anemia 1 = ("ANEMIC", 1) ∧
     1/2 ≤ (predict_anemia (3/4)).2) :=
  ⟨by norm_num, by norm_num,
    classifier_decision (3/4) (by norm_num) (by norm_num)⟩

/-! ## Claim C3 -/

/-- When no detection at all qualifies, the selection loop never moves off
its initial None accumulator. -/
theorem selectBest_no_qualifying (ds : List Det)
    (h : ∀ d ∈ ds, d.cls ∉ TARGET_CLASSES) : selectBest ds = none := by
  unfold selectBest
  induction ds with
  | nil => rfl
  | cons d0 rest ih =>
    have hc : ¬ (d0.cls ∈ TARGET_CLASSES ∧ (0 : Int) < area d0) := by
      intro hcon
      exact h d0 (List.mem_cons_self _ _) hcon.1
    rw [selectLoop, if_neg hc]
    exact ih (fun d hd => h d (List.mem_cons_of_mem _ hd))

/-- Claim C3: for every readable, valid image in which no detection has a
class label in the accepted set, the Detector does not fail: it returns
the entire (downscaled) image resized to 224x224 and converted to RGB —
never None — and saves the unmarked full image (no rectangle drawn on it)
as the boxed output. -/
theorem detector_fallback (cv : CV) (yolo : Image → List Det) (f : FileArg)
    (img0 : Image)
    (hdd : f.dotdot = false) (hex : f.fexists = true) (hif : f.isFile = true)
    (hsuf : f.suffix ∈ ALLOWED_EXTENSIONS) (hsize : f.size ≤ MAX_IMAGE_SIZE)
    (hread : f.imread = some img0)
    (hnoq : ∀ d ∈ yolo (loadScaled cv img0), d.cls ∉ TARGET_CLASSES) :
    detect_and_crop cv yolo f =
      (.ok (some (cvtBGR2RGB (cv.resize (loadScaled cv img0) 224 224))),
        [(boxedFilename f, loadScaled cv img0)]) ∧
    ∀ r, (detect_and_crop cv yolo f).1 = .ok (some r) →
      r.h = 224 ∧ r.w = 224 := by
  have hsel : selectBest (yolo (loadScaled cv img0)) = none :=
    selectBest_no_qualifying _ hnoq
  have hmain : detect_and_crop cv yolo f =
      (.ok (some (cvtBGR2RGB (cv.resize (loadScaled cv img0) 224 224))),
        [(boxedFilename f, loadScaled cv img0)]) := by
    unfold detect_and_crop
    simp [hdd, hex, hif, hsuf, not_lt.2 hsize, hread, hsel]
  refine ⟨hmain, ?_⟩
  intro r hr
  rw [hmain] at hr
  simp only [Except.ok.injEq, Option.some.injEq] at hr
  subst hr
  constructor
  · show (cv.resize (loadScaled cv img0) 224 224).h = 224
    exact cv.resize_h _ _ _
  · show (cv.resize (loadScaled cv img0) 224 224).w = 224
    exact cv.resize_w _ _ _

/-! ## Concrete instances used by the witnesses -/

/-- A trivial instantiation of the external-library context, used to
evaluate the model at concrete inputs. -/
def cvId : CV :=
  { resize := fun im nh nw => { h := nh, w := nw, pix := im.pix }
    resize_h := fun _ _ _ => rfl
    resize_w := fun _ _ _ => rfl
    rectangle := fun im _ _ _ _ => im
    clahe := fun g => g
    denoise := fun im => im
    sharpen := fun im => im
    npMax := fun v _ => v [0, 0, 0]
    percentile := fun m _ => m 0 0
    gaussBlur := fun m => m
    resizeMap := fun m _ _ => m
    colormap := fun _ h w => { h := h, w := w, pix := fun _ _ _ => 0 }
    grayBGR := fun im => im
    addWeighted := fun a _ _ _ _ => a
    encodeSize := fun _ => 0 }

/-- A concrete 100x100 input image. -/
def img100 : Image := { h := 100, w := 100, pix := fun _ _ _ => 7 }

/-- A concrete readable, valid input file. -/
def fGood : FileArg :=
  { pathStr := "uploads/a.jpg", name := "a.jpg", suffix := ".jpg"
    fexists := true, isFile := true, dotdot := false, nameDotdot := false
    size := 1000, imread := some img100 }

/-- A detector model that finds nothing. -/
def yoloNone : Image → List Det := fun _ => []

/-- A qualifying detection lying entirely right of a 100-pixel-wide image. -/
def dOut : Det :=
  { cls := "eye", x1 := 150, y1 := 10, x2 := 200, y2 := 20, score := 0 }

/-- A detector model that returns only the out-of-bounds detection. -/
def yoloOut : Image → List Det := fun _ => [dOut]

/-- A classifier model with the MobileNetV2 layer, probability 1, and an
all-zero input gradient (a flat gradient map). -/
def kmFlat : KModel :=
  { layers := ["mobilenetv2_1.00_224"]
    predictP := fun _ => 1
    inputGrads := fun _ => some (fun _ => 0) }

theorem detector_fallback_witness :
    (∀ d ∈ yoloNone (loadScaled cvId img100), d.cls ∉ TARGET_CLASSES) ∧
    (detect_and_crop cvId yoloNone fGood =
      (.ok (some (cvtBGR2RGB (cvId.resize (loadScaled cvId img100) 224 224))),
        [(boxedFilename fGood, loadScaled cvId img100)]) ∧
     ∀ r, (detect_and_crop cvId yoloNone fGood).1 = .ok (some r) →
       r.h = 224 ∧ r.w = 224) :=
  ⟨by simp [yoloNone],
    detector_fallback cvId yoloNone fGood img100 rfl rfl rfl (by decide)
      (by decide) rfl (by simp [yoloNone])⟩

/-! ## Claim C9 -/

/-- Claim C9: when a detection is selected but its clamped bounding box
yields an empty crop in numpy slicing semantics — the normalized stop of
the x-slice or of the y-slice does not exceed its normalized start, as
with a box entirely beyond the right or bottom image edge — the Detector
returns None instead of falling back to the full image, and the
orchestrator aborts the request with a hard failure.  (A clamped box
whose stop is strictly negative wraps around under numpy indexing and
yields a non-empty crop, so it does not satisfy this emptiness premise.) -/
theorem degenerate_crop_aborts (cv : CV) (yolo : Image → List Det)
    (km : KModel) (f : FileArg) (img0 : Image) (d : Det) (explain : Bool)
    (hdd : f.dotdot = false) (hex : f.fexists = true) (hif : f.isFile = true)
    (hsuf : f.suffix ∈ ALLOWED_EXTENSIONS) (hsize : f.size ≤ MAX_IMAGE_SIZE)
    (hread : f.imread = some img0)
    (hsel : selectBest (yolo (loadScaled cv img0)) = some d)
    (hempty :
      sliceNorm (min ((loadScaled cv img0).w : Int) d.x2)
          (loadScaled cv img0).w ≤
        sliceNorm (max 0 d.x1) (loadScaled cv img0).w ∨
      sliceNorm (min ((loadScaled cv img0).h : Int) d.y2)
          (loadScaled cv img0).h ≤
        sliceNorm (max 0 d.y1) (loadScaled cv img0).h) :
    (detect_and_crop cv yolo f).1 = .ok none ∧
    (run_pipeline cv yolo km f explain).1 =
      .error "Failed to extract image data for classification" := by
  have hzero :
      (cropSlice (loadScaled cv img0) (max 0 d.x1) (max 0 d.y1)
          (min ((loadScaled cv img0).w : Int) d.x2)
          (min ((loadScaled cv img0).h : Int) d.y2)).h *
        (cropSlice (loadScaled cv img0) (max 0 d.x1) (max 0 d.y1)
          (min ((loadScaled cv img0).w : Int) d.x2)
          (min ((loadScaled cv img0).h : Int) d.y2)).w * 3 = 0 := by
    unfold cropSlice
    rcases hempty with h | h
    · have hw : sliceNorm (min ((loadScaled cv img0).w : Int) d.x2)
            (loadScaled cv img0).w -
          sliceNorm (max 0 d.x1) (loadScaled cv img0).w = 0 :=
        Nat.sub_eq_zero_of_le h
      simp [hw]
    · have hh : sliceNorm (min ((loadScaled cv img0).h : Int) d.y2)
            (loadScaled cv img0).h -
          sliceNorm (max 0 d.y1) (loadScaled cv img0).h = 0 :=
        Nat.sub_eq_zero_of_le h
      simp [hh]
  have hdet : detect_and_crop cv yolo f =
      (.ok none,
        [(boxedFilename f,
          cv.rectangle (loadScaled cv img0) (max 0 d.x1) (max 0 d.y1)
            (min ((loadScaled cv img0).w : Int) d.x2)
            (min ((loadScaled cv img0).h : Int) d.y2))]) := by
    unfold detect_and_crop
    simp [hdd, hex, hif, hsuf, not_lt.2 hsize, hread, hsel, hzero]
  refine ⟨by rw [hdet], ?_⟩
  unfold run_pipeline
  rw [hdet]
  simp [hex]

theorem degenerate_crop_aborts_witness :
    selectBest (yoloOut (loadScaled cvId img100)) = some dOut ∧
    (sliceNorm (min ((loadScaled cvId img100).w : Int) dOut.x2)
        (loadScaled cvId img100).w ≤
      sliceNorm (max 0 dOut.x1) (loadScaled cvId img100).w ∨
     sliceNorm (min ((loadScaled cvId img100).h : Int) dOut.y2)
        (loadScaled cvId img100).h ≤
      sliceNorm (max 0 dOut.y1) (loadScaled cvId img100).h) ∧
    ((detect_and_crop cvId yoloOut fGood).1 = .ok none ∧
     (run_pipeline cvId yoloOut kmFlat fGood false).1 =
       .error "Failed to extract image data for classification") :=
  ⟨by rfl, by decide,
    degenerate_crop_aborts cvId yoloOut kmFlat fGood img100 dOut false rfl rfl
      rfl (by decide) (by decide) rfl (by rfl) (by decide)⟩

/-! ## Claims C5 and C6 -/

/-- Division of an 8-bit value by 255 lands in [0,1]. -/
theorem fin256_div_bounds (k : Fin 256) :
    0 ≤ ((k : Nat) : ℚ) / 255 ∧ ((k : Nat) : ℚ) / 255 ≤ 1 := by
  constructor
  · positivity
  · rw [div_le_one (by norm_num)]
    have hk : (k : Nat) ≤ 255 := Nat.lt_succ_iff.mp k.isLt
    exact_mod_cast hk

/-- Inversion on a successful preprocess_image: the produced tensor's
shape, dtype, and value range. -/
theorem preprocess_some_fields (cv : CV) (a t : NDArray)
    (h : preprocess_image cv a = some t) :
    t.shape = [1, 224, 224, 3] ∧ t.dtype = .float32 ∧
    ∀ l, 0 ≤ t.val l ∧ t.val l ≤ 1 := by
  unfold preprocess_image at h
  split at h
  · exact absurd h (by simp)
  · split at h
    · exact absurd h (by simp)
    · split at h
      · simp only [Option.some.injEq] at h
        subst h
        refine ⟨rfl, rfl, ?_⟩
        intro l
        rcases l with _ | ⟨n, _ | ⟨i, _ | ⟨j, _ | ⟨c, _ | ⟨e, rest⟩⟩⟩⟩⟩
        · exact ⟨le_refl 0, by norm_num⟩
        · exact ⟨le_refl 0, by norm_num⟩
        · exact ⟨le_refl 0, by norm_num⟩
        · exact ⟨le_refl 0, by norm_num⟩
        · exact fin256_div_bounds _
        · exact ⟨le_refl 0, by norm_num⟩
      · exact absurd h (by simp)

/-- Claim C5: every region accepted by the Normalizer yields a tensor of
shape (1,224,224,3), float dtype, with all values in [0,1]; and every
input failing the shape or integer-dtype/range validation yields None (the
model is total, so no exception can escape). -/
theorem preprocess_contract (cv : CV) (a : NDArray) :
    (∀ t, preprocess_image cv a = some t →
      t.shape = [1, 224, 224, 3] ∧ t.dtype = .float32 ∧
      ∀ l, 0 ≤ t.val l ∧ t.val l ≤ 1) ∧
    ((¬ a.shape = [224, 224, 3] ∨ a.dtype.isInteger = false ∨
        255 < cv.npMax a.val a.shape) →
      preprocess_image cv a = none) := by
  constructor
  · intro t ht
    exact preprocess_some_fields cv a t ht
  · intro hbad
    unfold preprocess_image
    split
    · rfl
    · split
      · rfl
      · rename_i hsh hok
        exfalso
        rcases hbad with hb | hb | hb
        · exact hsh hb
        · exact hok (Or.inl (by simp [hb]))
        · exact hok (Or.inr hb)

/-- A concrete valid region: 224x224x3 uint8, every pixel 7. -/
def a5 : NDArray :=
  { shape := [224, 224, 3], dtype := .uint8, val := fun _ => 7 }

/-- The tensor the Normalizer produces from a5. -/
def t5 : NDArray := (preprocess_image cvId a5).getD ⟨[], .other, fun _ => 0⟩

/-- A concrete invalid region (wrong shape). -/
def aBad : NDArray :=
  { shape := [10, 10, 3], dtype := .uint8, val := fun _ => 0 }

theorem preprocess_contract_witness :
    (preprocess_image cvId a5 = some t5 ∧
      (t5.shape = [1, 224, 224, 3] ∧ t5.dtype = .float32 ∧
        ∀ l, 0 ≤ t5.val l ∧ t5.val l ≤ 1)) ∧
    preprocess_image cvId aBad = none :=
  ⟨⟨rfl, (preprocess_contract cvId a5).1 t5 rfl⟩,
    (preprocess_contract cvId aBad).2 (Or.inl (by decide))⟩

/-- Counterexample to claim C6 as stated: the Normalizer's own
previously-produced tensor t5 does not pass the Normalizer's shape/dtype
validation — its shape is (1,224,224,3), not (224,224,3), and its dtype is
float — so feeding it back returns None instead of passing. -/
theorem tensor_roundtrip_counterexample :
    preprocess_image cvId a5 = some t5 ∧
    regionValid cvId t5 = false ∧
    preprocess_image cvId t5 = none :=
  ⟨rfl, by decide, rfl⟩

/-- Claim C6 (amended): every tensor previously produced by the Normalizer
passes the Explainer's tensor-shape validation (its shape is exactly
(1,224,224,3) and its dtype is float), but always fails the Normalizer's
own input shape/dtype validation — which expects a 224x224x3 integer array
— so feeding it back through preprocess_image returns None. -/
theorem tensor_roundtrip_amended (cv : CV) (a t : NDArray)
    (h : preprocess_image cv a = some t) :
    t.shape = [1, 224, 224, 3] ∧ t.dtype = .float32 ∧
    regionValid cv t = false ∧ preprocess_image cv t = none := by
  obtain ⟨hs, hd, _⟩ := preprocess_some_fields cv a t h
  refine ⟨hs, hd, ?_, ?_⟩
  · simp [regionValid, hs]
  · unfold preprocess_image
    rw [if_pos (by simp [hs])]

theorem tensor_roundtrip_amended_witness :
    preprocess_image cvId a5 = some t5 ∧
    (t5.shape = [1, 224, 224, 3] ∧ t5.dtype = .float32 ∧
      regionValid cvId t5 = false ∧ preprocess_image cvId t5 = none) :=
  ⟨rfl, tensor_roundtrip_amended cvId a5 t5 rfl⟩

/-! ## Pipeline-level lemmas -/

/-- generate_gradcam either fails with no surviving file, or succeeds
writing exactly the requested path. -/
theorem gradcam_cases (cv : CV) (km : KModel) (t : NDArray) (orig : Image)
    (o : OutPath) :
    generate_gradcam cv km t orig o = (none, []) ∨
    ∃ ov, generate_gradcam cv km t orig o =
      (some o.pathStr, [(o.pathStr, ov)]) := by
  unfold generate_gradcam
  repeat first
    | exact Or.inl rfl
    | exact Or.inr ⟨_, rfl⟩
    | split
    | dsimp only

/-- A failing generate_gradcam leaves no file behind. -/
theorem gradcam_none_files (cv : CV) (km : KModel) (t : NDArray)
    (orig : Image) (o : OutPath)
    (h : (generate_gradcam cv km t orig o).1 = none) :
    generate_gradcam cv km t orig o = (none, []) := by
  rcases gradcam_cases cv km t orig o with hg | ⟨ov, hg⟩
  · exact hg
  · rw [hg] at h
    exact absurd h (by simp)

/-- Forward computation of run_pipeline without explainability from its
stage results. -/
theorem run_false_of_parts (cv : CV) (yolo : Image → List Det) (km : KModel)
    (f : FileArg) (crop : Image) (t : NDArray) (fsd : List (String × Image))
    (hex : f.fexists = true)
    (hdet : detect_and_crop cv yolo f = (.ok (some crop), fsd))
    (hpre : preprocess_image cv (imgToND crop) = some t) :
    run_pipeline cv yolo km f false =
      (.ok (classifierResult km f t), fsd) := by
  unfold run_pipeline
  rw [if_neg (by simp [hex]), hdet]
  simp [hpre]

/-- Forward computation of run_pipeline with explainability requested when
the Explainer fails: the failure is absorbed and nothing else changes. -/
theorem run_explain_of_parts (cv : CV) (yolo : Image → List Det)
    (km : KModel) (f : FileArg) (crop : Image) (t : NDArray)
    (fsd : List (String × Image))
    (hex : f.fexists = true)
    (hdet : detect_and_crop cv yolo f = (.ok (some crop), fsd))
    (hpre : preprocess_image cv (imgToND crop) = some t)
    (hfail : (generate_gradcam cv km t crop (heatOutPath f)).1 = none) :
    run_pipeline cv yolo km f true =
      (.ok (classifierResult km f t), fsd) := by
  have hg : generate_gradcam cv km t crop (heatOutPath f) = (none, []) :=
    gradcam_none_files cv km t crop (heatOutPath f) hfail
  unfold run_pipeline
  rw [if_neg (by simp [hex]), hdet]
  simp [hpre, hg]

/-- Inversion on a successful run_pipeline: the stage results it came
from, and the two possible shapes of the final record and file list. -/
theorem run_ok_inv (cv : CV) (yolo : Image → List Det) (km : KModel)
    (f : FileArg) (e : Bool) (r : PipeResult) (fs : List (String × Image))
    (h : run_pipeline cv yolo km f e = (.ok r, fs)) :
    ∃ crop t fsd,
      f.fexists = true ∧
      detect_and_crop cv yolo f = (.ok (some crop), fsd) ∧
      preprocess_image cv (imgToND crop) = some t ∧
      pipelineCrop cv yolo f = some crop ∧
      pipelineTensor cv yolo f = some t ∧
      ((r = classifierResult km f t ∧ fs = fsd ∧
          (e = true →
            (generate_gradcam cv km t crop (heatOutPath f)).1 = none)) ∨
        (∃ hp fs2, e = true ∧
          r = { classifierResult km f t with heatmap_path := some hp } ∧
          generate_gradcam cv km t crop (heatOutPath f) = (some hp, fs2) ∧
          fs = fsd ++ fs2)) := by
  unfold run_pipeline at h
  split at h
  · exact absurd h (by simp)
  · rename_i hne
    have hex : f.fexists = true := by
      by_contra hcon
      exact hne (by simpa using hcon)
    split at h
    · exact absurd h (by simp)
    · exact absurd h (by simp)
    · rename_i crop fsd hdet
      split at h
      · exact absurd h (by simp)
      · rename_i t hpre
        have hpc : pipelineCrop cv yolo f = some crop := by
          simp [pipelineCrop, hdet]
        have hpt : pipelineTensor cv yolo f = some t := by
          simp [pipelineTensor, hpc, hpre]
        refine ⟨crop, t, fsd, hex, hdet, hpre, hpc, hpt, ?_⟩
        split at h
        · rename_i he
          split at h
          · rename_i hp fs2 hg
            simp only [Prod.mk.injEq, Except.ok.injEq] at h
            exact Or.inr ⟨hp, fs2, he, h.1.symm, hg, h.2.symm⟩
          · rename_i fs2 hg
            simp only [Prod.mk.injEq, Except.ok.injEq] at h
            have hg2 : generate_gradcam cv km t crop (heatOutPath f) = (none, fs2) := hg
            refine Or.inl ⟨h.1.symm, ?_, fun _ => by rw [hg2]⟩
            have hfs2 : fs2 = [] := by
              have := gradcam_none_files cv km t crop (heatOutPath f) (by rw [hg2])
              rw [hg2] at this
              exact (Prod.mk.injEq _ _ _ _ ▸ this).2
            rw [← h.2, hfs2, List.append_nil]
        · rename_i he
          simp only [Prod.mk.injEq, Except.ok.injEq] at h
          exact Or.inl ⟨h.1.symm, h.2.symm, fun hcon => absurd hcon (by simp [he])⟩

/-! ## Concrete no-detection scenario shared by several witnesses -/

/-- The fallback crop produced by the concrete no-detection scenario. -/
def cropGood : Image := cvtBGR2RGB (cvId.resize (loadScaled cvId img100) 224 224)

/-- The tensor the Normalizer produces from that crop. -/
def tGood : NDArray :=
  (preprocess_image cvId (imgToND cropGood)).getD ⟨[], .other, fun _ => 0⟩

/-- The concrete run's result record. -/
def rGood : PipeResult := classifierResult kmFlat fGood tGood

/-- Concrete evaluation of the full pipeline without explainability. -/
theorem run_false_concrete :
    run_pipeline cvId yoloNone kmFlat fGood false =
      (.ok rGood, [(boxedFilename fGood, loadScaled cvId img100)]) :=
  run_false_of_parts cvId yoloNone kmFlat fGood cropGood tGood
    [(boxedFilename fGood, loadScaled cvId img100)] rfl rfl rfl

/-- On the all-zero gradient of kmFlat both percentiles coincide, so the
Explainer reports no explanation. -/
theorem gradcam_flat_concrete :
    (generate_gradcam cvId kmFlat tGood cropGood (heatOutPath fGood)).1 =
      none := rfl

/-! ## Claim C2 -/

/-- Claim C2: whenever explainability is requested and the Explainer fails
on the invocation's tensor and crop — for any reason — the failure is
absorbed without raising: the orchestrator returns exactly the result and
files of the non-explain run, whose record carries the classifier's label
and confidence and the boxed-image path and whose heatmap field is
entirely absent; and the degenerate case in which the 99th percentile of
the gradient map does not exceed the 40th is such a failure
(generate_gradcam returns None on it). -/
theorem explain_failure_absorbed (cv : CV) (yolo : Image → List Det)
    (km : KModel) (f : FileArg) (r : PipeResult) (fs : List (String × Image))
    (h0 : run_pipeline cv yolo km f false = (.ok r, fs))
    (hfail : ∀ crop t, pipelineCrop cv yolo f = some crop →
      preprocess_image cv (imgToND crop) = some t →
      (generate_gradcam cv km t crop (heatOutPath f)).1 = none) :
    run_pipeline cv yolo km f true = (.ok r, fs) ∧
    (∃ t, pipelineTensor cv yolo f = some t ∧ r = classifierResult km f t) ∧
    r.heatmap_path = none ∧
    (∀ t2 c2 o2 g, km.inputGrads t2 = some g →
      cv.percentile (rawHeatmap g) 99 ≤ cv.percentile (rawHeatmap g) 40 →
      (generate_gradcam cv km t2 c2 o2).1 = none) := by
  obtain ⟨crop, t, fsd, hex, hdet, hpre, hpc, hpt, hcase⟩ :=
    run_ok_inv cv yolo km f false r fs h0
  rcases hcase with ⟨hr, hfs, _⟩ | ⟨hp, fs2, habs, _⟩
  · subst hr
    have hgf := hfail crop t hpc hpre
    have hrun := run_explain_of_parts cv yolo km f crop t fsd hex hdet hpre hgf
    rw [← hfs] at hrun
    refine ⟨hrun, ⟨t, hpt, rfl⟩, rfl, ?_⟩
    intro t2 c2 o2 g hg hperc
    unfold generate_gradcam
    split
    · rfl
    · split
      · rfl
      · split
        · rfl
        · split
          · rfl
          · rw [hg]
            dsimp only
            rw [if_pos hperc]
  · exact absurd habs (by simp)

theorem explain_failure_absorbed_witness :
    run_pipeline cvId yoloNone kmFlat fGood false =
      (.ok rGood, [(boxedFilename fGood, loadScaled cvId img100)]) ∧
    (run_pipeline cvId yoloNone kmFlat fGood true =
        (.ok rGood, [(boxedFilename fGood, loadScaled cvId img100)]) ∧
      (∃ t, pipelineTensor cvId yoloNone fGood = some t ∧
        rGood = classifierResult kmFlat fGood t) ∧
      rGood.heatmap_path = none ∧
      (∀ t2 c2 o2 g, kmFlat.inputGrads t2 = some g →
        cvId.percentile (rawHeatmap g) 99 ≤ cvId.percentile (rawHeatmap g) 40 →
        (generate_gradcam cvId kmFlat t2 c2 o2).1 = none)) :=
  ⟨run_false_concrete,
    explain_failure_absorbed cvId yoloNone kmFlat fGood rGood
      [(boxedFilename fGood, loadScaled cvId img100)] run_false_concrete
      (by
        intro crop t hc ht
        have hc0 : pipelineCrop cvId yoloNone fGood = some cropGood := rfl
        rw [hc0] at hc
        have hcrop : crop = cropGood := (Option.some.inj hc).symm
        subst hcrop
        have ht0 : preprocess_image cvId (imgToND cropGood) = some tGood := rfl
        rw [ht0] at ht
        have htg : t = tGood := (Option.some.inj ht).symm
        subst htg
        exact gradcam_flat_concrete)⟩

/-! ## Claim C10 -/

/-- Claim C10: the Explainer fetches the layer named 'mobilenetv2_1.00_224'
from the classifier model before computing any gradient; for every model
lacking a layer of exactly that name, generate_gradcam always returns no
explanation — even when the input tensor is valid and gradients would be
computable — and every successful explain-requested pipeline run with such
a model omits the heatmap field. -/
theorem missing_layer_no_heatmap (cv : CV) (km : KModel)
    (hmiss : ¬ "mobilenetv2_1.00_224" ∈ km.layers) :
    (∀ t orig o, (generate_gradcam cv km t orig o).1 = none) ∧
    (∀ yolo f r fs, run_pipeline cv yolo km f true = (.ok r, fs) →
      r.heatmap_path = none) := by
  have hg : ∀ t orig o, (generate_gradcam cv km t orig o).1 = none := by
    intro t orig o
    unfold generate_gradcam
    split
    · rfl
    · split
      · rfl
      · split
        · rfl
        · rfl
  refine ⟨hg, ?_⟩
  intro yolo f r fs h
  obtain ⟨crop, t, fsd, _, _, _, _, _, hcase⟩ :=
    run_ok_inv cv yolo km f true r fs h
  rcases hcase with ⟨hr, _, _⟩ | ⟨hp, fs2, _, hr, hgr, _⟩
  · subst hr
    rfl
  · have hnone := hg t crop (heatOutPath f)
    rw [hgr] at hnone
    exact absurd hnone (by simp)

/-- A classifier model without the MobileNetV2 layer. -/
def kmNoLayer : KModel :=
  { layers := [], predictP := fun _ => 1, inputGrads := fun _ => none }

theorem missing_layer_no_heatmap_witness :
    (¬ "mobilenetv2_1.00_224" ∈ kmNoLayer.layers) ∧
    ((∀ t orig o, (generate_gradcam cvId kmNoLayer t orig o).1 = none) ∧
      (∀ yolo f r fs, run_pipeline cvId yolo kmNoLayer f true = (.ok r, fs) →
        r.heatmap_path = none)) :=
  ⟨by simp [kmNoLayer], missing_layer_no_heatmap cvId kmNoLayer (by simp [kmNoLayer])⟩

/-! ## Claim C7 -/

/-- Counterexample to claim C7 as stated: a concrete invocation in which
no detection qualifies (the detector finds nothing), which succeeds via
the full-image fallback, yet whose final result record carries
note = None — no "no region found" note is recorded. -/
theorem note_counterexample :
    (∀ d ∈ yoloNone (loadScaled cvId img100), d.cls ∉ TARGET_CLASSES) ∧
    run_pipeline cvId yoloNone kmFlat fGood false =
      (.ok rGood, [(boxedFilename fGood, loadScaled cvId img100)]) ∧
    rGood.note = none :=
  ⟨by simp [yoloNone], run_false_concrete, rfl⟩

/-- Claim C7 (amended): the pipeline's final result record always carries
note = None, whether or not a detection qualified — the "no region found"
condition is only printed to the console by the Detector and is never
recorded in the result. -/
theorem note_always_none (cv : CV) (yolo : Image → List Det) (km : KModel)
    (f : FileArg) (e : Bool) (r : PipeResult) (fs : List (String × Image))
    (h : run_pipeline cv yolo km f e = (.ok r, fs)) : r.note = none := by
  obtain ⟨crop, t, fsd, _, _, _, _, _, hcase⟩ :=
    run_ok_inv cv yolo km f e r fs h
  rcases hcase with ⟨hr, _, _⟩ | ⟨hp, fs2, _, hr, _, _⟩
  · subst hr
    rfl
  · subst hr
    rfl

theorem note_always_none_witness :
    run_pipeline cvId yoloNone kmFlat fGood false =
      (.ok rGood, [(boxedFilename fGood, loadScaled cvId img100)]) ∧
    rGood.note = none :=
  ⟨run_false_concrete,
    note_always_none cvId yoloNone kmFlat fGood false rGood
      [(boxedFilename fGood, loadScaled cvId img100)] run_false_concrete⟩

/-! ## Claim C8 -/

/-- The Detector writes exactly one file — the boxed image — whenever it
returns at all, and none when it raises during validation or load. -/
theorem detect_files (cv : CV) (yolo : Image → List Det) (f : FileArg) :
    ((detect_and_crop cv yolo f).2 = [] ∧
      ∃ err, (detect_and_crop cv yolo f).1 = .error err) ∨
    (∃ c bi, detect_and_crop cv yolo f = (.ok c, [(boxedFilename f, bi)])) := by
  unfold detect_and_crop
  repeat first
    | exact Or.inl ⟨rfl, _, rfl⟩
    | exact Or.inr ⟨_, _, rfl⟩
    | split
    | dsimp only

/-- When run_pipeline raises, the surviving files are either none (failure
before the Detector writes) or exactly the boxed image. -/
theorem run_error_inv (cv : CV) (yolo : Image → List Det) (km : KModel)
    (f : FileArg) (e : Bool) (err : String) (fs : List (String × Image))
    (h : run_pipeline cv yolo km f e = (.error err, fs)) :
    fs = [] ∨ fs.map Prod.fst = [boxedFilename f] := by
  unfold run_pipeline at h
  split at h
  · injection h with h1 h2
    exact Or.inl h2.symm
  · split at h
    · rename_i err0 fs0 hdeteq
      injection h with h1 h2
      rcases detect_files cv yolo f with ⟨hf2, _, _⟩ | ⟨c, bi, hdf⟩
      · rw [hdeteq] at hf2
        rw [← h2]
        exact Or.inl hf2
      · rw [hdeteq] at hdf
        exact absurd hdf (by simp)
    · rename_i fs0 hdeteq
      injection h with h1 h2
      rcases detect_files cv yolo f with ⟨_, _, hf1⟩ | ⟨c, bi, hdf⟩
      · rw [hdeteq] at hf1
        exact absurd hf1 (by simp)
      · rw [hdeteq] at hdf
        injection hdf with hd1 hd2
        refine Or.inr ?_
        rw [← h2, hd2]
        simp
    · rename_i crop fs0 hdeteq
      split at h
      · injection h with h1 h2
        rcases detect_files cv yolo f with ⟨_, _, hf1⟩ | ⟨c, bi, hdf⟩
        · rw [hdeteq] at hf1
          exact absurd hf1 (by simp)
        · rw [hdeteq] at hdf
          injection hdf with hd1 hd2
          refine Or.inr ?_
          rw [← h2, hd2]
          simp
      · rename_i t hpre
        split at h
        · split at h
          · injection h with h1 _
            exact absurd h1 (by simp)
          · injection h with h1 _
            exact absurd h1 (by simp)
        · injection h with h1 _
          exact absurd h1 (by simp)

/-- Claim C8 (amended): every invocation leaves zero, one, or two derived
images under the results directory — none when the request aborts before
the Detector writes; exactly the boxed image once detection completes
(including requests aborted later and failed explainability); the boxed
image plus the heatmap exactly when explainability was requested and the
Explainer succeeded. -/
theorem pipeline_write_census (cv : CV) (yolo : Image → List Det)
    (km : KModel) (f : FileArg) (e : Bool) :
    ((run_pipeline cv yolo km f e).2 = [] ∧
      ∃ err, (run_pipeline cv yolo km f e).1 = .error err) ∨
    ((run_pipeline cv yolo km f e).2.map Prod.fst = [boxedFilename f] ∧
      ∀ r, (run_pipeline cv yolo km f e).1 = .ok r → r.heatmap_path = none) ∨
    ((run_pipeline cv yolo km f e).2.map Prod.fst =
        [boxedFilename f, "heatmap_" ++ f.name] ∧ e = true ∧
      ∃ r, (run_pipeline cv yolo km f e).1 = .ok r ∧
        r.heatmap_path = some ("heatmap_" ++ f.name)) := by
  rcases hrun : run_pipeline cv yolo km f e with ⟨res, fs⟩
  rcases res with err | r0
  · rcases run_error_inv cv yolo km f e err fs hrun with hfs | hfs
    · exact Or.inl ⟨hfs, err, rfl⟩
    · refine Or.inr (Or.inl ⟨hfs, ?_⟩)
      intro r hr
      simp at hr
  · obtain ⟨crop, t, fsd, _, hdet, hpre, _, _, hcase⟩ :=
      run_ok_inv cv yolo km f e r0 fs hrun
    rcases detect_files cv yolo f with ⟨_, _, hf1⟩ | ⟨c, bi, hdf⟩
    · rw [hdet] at hf1
      exact absurd hf1 (by simp)
    · rw [hdet] at hdf
      injection hdf with hd1 hd2
      rcases hcase with ⟨hr0, hfs, _⟩ | ⟨hp, fs2, he, hr0, hgr, hfs⟩
      · refine Or.inr (Or.inl ⟨?_, ?_⟩)
        · show fs.map Prod.fst = _
          rw [hfs, hd2]
          simp
        · intro r hr
          have hr2 : r0 = r := by simpa using hr
          rw [← hr2, hr0]
          rfl
      · rcases gradcam_cases cv km t crop (heatOutPath f) with hgc | ⟨ov, hgc⟩
        · rw [hgc] at hgr
          exact absurd hgr (by simp)
        · rw [hgc] at hgr
          injection hgr.symm with hg1 hg2
          have hhp : hp = "heatmap_" ++ f.name := by
            have h3 := Option.some.inj hg1
            rw [h3]
            rfl
          refine Or.inr (Or.inr ⟨?_, he, r0, rfl, ?_⟩)
          · show fs.map Prod.fst = _
            rw [hfs, hd2, hg2]
            simp [heatOutPath]
          · rw [hr0, hhp]

/-- Counterexample to claim C8 as stated ("exactly zero or two derived
images"): the concrete successful invocation without explainability writes
exactly one derived image — the boxed one — which is neither zero nor
two. -/
theorem write_census_counterexample :
    (run_pipeline cvId yoloNone kmFlat fGood false).1 = .ok rGood ∧
    (run_pipeline cvId yoloNone kmFlat fGood false).2.length = 1 ∧
    ¬ ((run_pipeline cvId yoloNone kmFlat fGood false).2.length = 0 ∨
      (run_pipeline cvId yoloNone kmFlat fGood false).2.length = 2) := by
  rw [run_false_concrete]
  exact ⟨rfl, rfl, by simp⟩

theorem pipeline_write_census_witness :
    ((run_pipeline cvId yoloNone kmFlat fGood false).2 = [] ∧
      ∃ err, (run_pipeline cvId yoloNone kmFlat fGood false).1 = .error err) ∨
    ((run_pipeline cvId yoloNone kmFlat fGood false).2.map Prod.fst =
        [boxedFilename fGood] ∧
      ∀ r, (run_pipeline cvId yoloNone kmFlat fGood false).1 = .ok r →
        r.heatmap_path = none) ∨
    ((run_pipeline cvId yoloNone kmFlat fGood false).2.map Prod.fst =
        [boxedFilename fGood, "heatmap_" ++ fGood.name] ∧ false = true ∧
      ∃ r, (run_pipeline cvId yoloNone kmFlat fGood false).1 = .ok r ∧
        r.heatmap_path = some ("heatmap_" ++ fGood.name)) :=
  pipeline_write_census cvId yoloNone kmFlat fGood false
